import Mathlib

/-!
Shallow embedding of `surfman/src/platform/windows/wgl/context.rs` (WGL context
and surface lifecycle management on Windows), together with proofs about its
context/surface state machine, format negotiation, context creation, the
current-context guard, and the one-time extension loading.

Native handles (`HDC`, `HGLRC`, `HWND`) are modelled as `Nat`; a null handle is
`0`.  Driver entry points reached through function pointers are modelled as
Lean functions supplied by a driver record.  Panics (`panic!`, `expect`,
failed `assert`) are modelled as explicit `panic` outcomes.
-/

namespace SurfmanWgl

/-- `WindowingApiError` from the crate root; only the `Failed` variant is used
by this file. -/
inductive WindowingApiError where
  | Failed
deriving DecidableEq

/-- The crate-level `Error` enum, restricted to the variants this file
produces or propagates. -/
inductive Error where
  | RequiredExtensionUnavailable
  | PixelFormatSelectionFailed (err : WindowingApiError)
  | NoPixelFormatFound
  | ContextCreationFailed (err : WindowingApiError)
  | ExternalRenderTarget
  | IncompatibleSurface
  | SurfaceCreationFailed (err : WindowingApiError)
  | MakeCurrentFailed (err : WindowingApiError)
deriving DecidableEq

/-- `GLVersion` from the crate root: a (major, minor) GL version pair. -/
structure GLVersion where
  major : Nat
  minor : Nat
deriving DecidableEq

/-- Modelled from the spec: `ContextAttributeFlags` is a bit-flag set from the
crate root (not under the sources given here); the negotiator only reads the
`ALPHA`, `DEPTH` and `STENCIL` flags, so it is modelled as three booleans. -/
structure ContextAttributeFlags where
  alpha : Bool
  depth : Bool
  stencil : Bool
deriving DecidableEq

/-- `ContextAttributes` from the crate root: the abstract attribute request
handed to the format negotiator. -/
structure ContextAttributes where
  flags : ContextAttributeFlags
  version : GLVersion
deriving DecidableEq

/-- `Win32Objects` from `super::surface`: the native backing of a `Surface`,
either a window or a GL texture (the texture case renders through the hidden
DC of the hidden window). -/
inductive Win32Objects where
  | window (window : Nat)
  | texture
deriving DecidableEq

/-- Modelled from the spec: `Surface` (defined in `super::surface`, not under
the sources given here) carries the identity of the `Context` it was created
for (`context_id`) plus its native `Win32Objects`. -/
structure Surface where
  context_id : Nat
  win32_objects : Win32Objects
deriving DecidableEq

/-- `SurfaceType` from `super::surface`: either a caller-owned widget (window)
or a generic off-screen request.  The `Generic` size payload is irrelevant
here and omitted. -/
inductive SurfaceType where
  | Widget (native_widget : Nat)
  | Generic
deriving DecidableEq

/-- The `Framebuffer` sum type: no drawable, an external (unowned) `HDC`, or
an owned, library-managed surface. -/
inductive Framebuffer where
  | none
  | external (dc : Nat)
  | surface (surface : Surface)
deriving DecidableEq

/-- The `Context` struct.  The loaded GL function table (`gl: Gl`) is not
modelled; `hidden_window` stores the device context handle of the hidden window
when the context owns a hidden window. -/
structure Context where
  id : Nat
  glrc : Nat
  hidden_window : Option Nat
  framebuffer : Framebuffer
deriving DecidableEq

/-- Reasons for the panics this file can raise. -/
inductive PanicReason where
  /-- `panic!("Tried to attach a surface, but there was already a surface present!")` -/
  | surfaceAlreadyPresent
  /-- `.expect("Where is our surface?")` on `release_surface` returning `None` -/
  | missingSurface
  /-- a failed `assert_ne!` during context creation -/
  | assertionFailed
deriving DecidableEq

/-- `Device::attach_surface`: legal only from `Framebuffer::None`; any other
state panics ("Tried to attach a surface, but there was already a surface
present!"), modelled as an `Except.error`. -/
def attach_surface (context : Context) (surface : Surface) :
    Except PanicReason Context :=
  match context.framebuffer with
  | Framebuffer.none =>
      Except.ok { context with framebuffer := Framebuffer.surface surface }
  | _ => Except.error PanicReason.surfaceAlreadyPresent

/-- `Device::release_surface`: `mem::replace` swaps `Framebuffer::None` into
the context unconditionally and the old value is inspected; an owned surface
is returned, anything else yields `None`. -/
def release_surface (context : Context) : Option Surface × Context :=
  let context' := { context with framebuffer := Framebuffer.none }
  match context.framebuffer with
  | Framebuffer.surface surface => (some surface, context')
  | _ => (none, context')

/-- The (drawable, context) pair currently active on the calling thread: the
state read by `wglGetCurrentDC` / `wglGetCurrentContext` and written by
`wglMakeCurrent`. -/
structure ThreadState where
  dc : Nat
  glrc : Nat
deriving DecidableEq

/-- `wglGetCurrentDC`: the currently active device context of the calling thread. -/
def wglGetCurrentDC (ts : ThreadState) : Nat := ts.dc

/-- `wglGetCurrentContext`: the currently active GL context of the calling thread. -/
def wglGetCurrentContext (ts : ThreadState) : Nat := ts.glrc

/-- `wglMakeCurrent`: driver primitive making the (drawable, context) pair
current on the calling thread.  The driver call is modelled as succeeding: it
returns its `BOOL` status (always `TRUE` here) and the updated thread state. -/
def wglMakeCurrent (dc : Nat) (glrc : Nat) (_ts : ThreadState) :
    Bool × ThreadState :=
  (true, { dc := dc, glrc := glrc })

/-- `winuser::GetDC`: device contexts of windows are modelled abstractly by
letting a window handle stand for its own device context. -/
def winuser_GetDC (window : Nat) : Nat := window

/-- `Device::get_context_dc`: the device context a context renders to.
`Framebuffer::None` hits `unreachable!` and a texture-backed surface on a
context without a hidden window hits `.unwrap()`; both are modelled as
`none`. -/
def get_context_dc (context : Context) : Option Nat :=
  match context.framebuffer with
  | Framebuffer.none => none
  | Framebuffer.external dc => some dc
  | Framebuffer.surface surface =>
      match surface.win32_objects with
      | Win32Objects.window window => some (winuser_GetDC window)
      | Win32Objects.texture => context.hidden_window

/-- Modelled from the spec: `Device::context_is_current` (defined outside the
sources given here) detects whether this context is presently the active context
of the calling thread. -/
def context_is_current (ts : ThreadState) (context : Context) : Bool :=
  wglGetCurrentContext ts == context.glrc

/-- Modelled from the spec: `Device::make_context_current` (defined outside
the sources given here) makes the (drawable, context) pair of the context current
on the calling thread via `wglMakeCurrent`; a context with no drawable cannot
be activated. -/
def make_context_current (context : Context) (ts : ThreadState) :
    Except Error ThreadState :=
  match get_context_dc context with
  | some dc => Except.ok (wglMakeCurrent dc context.glrc ts).2
  | none => Except.error (Error.MakeCurrentFailed WindowingApiError.Failed)

/-- Outcome of `Device::replace_context_surface`: the detached old surface on
success, a typed error, or a panic. -/
inductive ReplaceOutcome where
  | ok (old_surface : Surface)
  | err (e : Error)
  | panic (reason : PanicReason)
deriving DecidableEq

/-- `Device::replace_context_surface`.  The external-target check precedes
the surface-compatibility check; then the old surface is released, the new
one attached, and the context is re-activated only if it was the current
context of the calling thread at entry.  The result carries the final context and thread
state (the Rust `&mut Context` persists across the call; error paths return
before any mutation). -/
def replace_context_surface (ts : ThreadState) (context : Context)
    (new_surface : Surface) : ReplaceOutcome × Context × ThreadState :=
  match context.framebuffer with
  | Framebuffer.external _ => (ReplaceOutcome.err Error.ExternalRenderTarget, context, ts)
  | _ =>
      if context.id ≠ new_surface.context_id then
        (ReplaceOutcome.err Error.IncompatibleSurface, context, ts)
      else
        let is_current := context_is_current ts context
        match release_surface context with
        | (none, context1) => (ReplaceOutcome.panic PanicReason.missingSurface, context1, ts)
        | (some old_surface, context1) =>
            match attach_surface context1 new_surface with
            | Except.error reason => (ReplaceOutcome.panic reason, context1, ts)
            | Except.ok context2 =>
                if is_current then
                  match make_context_current context2 ts with
                  | Except.error e => (ReplaceOutcome.err e, context2, ts)
                  | Except.ok ts' => (ReplaceOutcome.ok old_surface, context2, ts')
                else (ReplaceOutcome.ok old_surface, context2, ts)

/-! ### Format negotiation -/

def WGL_DRAW_TO_WINDOW_ARB : Int := 0x2001
def WGL_ACCELERATION_ARB : Int := 0x2003
def WGL_SUPPORT_OPENGL_ARB : Int := 0x2010
def WGL_DOUBLE_BUFFER_ARB : Int := 0x2011
def WGL_PIXEL_TYPE_ARB : Int := 0x2013
def WGL_COLOR_BITS_ARB : Int := 0x2014
def WGL_ALPHA_BITS_ARB : Int := 0x201b
def WGL_DEPTH_BITS_ARB : Int := 0x2022
def WGL_STENCIL_BITS_ARB : Int := 0x2023
def WGL_FULL_ACCELERATION_ARB : Int := 0x2027
def WGL_TYPE_RGBA_ARB : Int := 0x202b
def WGL_CONTEXT_MAJOR_VERSION_ARB : Int := 0x2091
def WGL_CONTEXT_MINOR_VERSION_ARB : Int := 0x2092
def WGL_CONTEXT_PROFILE_MASK_ARB : Int := 0x9126
def WGL_CONTEXT_CORE_PROFILE_BIT_ARB : Int := 0x00000001

/-- `gl::TRUE` as a `c_int`. -/
def GL_TRUE : Int := 1

/-- `WGLPixelFormatExtensionFunctions`.  `ChoosePixelFormatARB` is the
`wglChoosePixelFormatARB` entry point of the driver, modelled as a function from
the zero-terminated integer attribute list to the returned
`(BOOL, pixel_format, pixel_format_count)` triple (the call passes no float
attributes and asks for at most one format).  `GetPixelFormatAttribivARB` is
never called in this file. -/
structure WGLPixelFormatExtensionFunctions where
  ChoosePixelFormatARB : List Int → Bool × Int × Nat
  GetPixelFormatAttribivARB : Unit

/-- `WGLExtensionFunctions`.  `CreateContextAttribsARB` is the
`wglCreateContextAttribsARB` entry point of the driver, modelled as a function from the device context
and the zero-terminated attribute list to the returned `HGLRC` (`0` = null;
the share context passed is always null).  `GetExtensionsStringARB` is
modelled as the extension string the resolved pointer would return.  The DX
interop function pointers are never called in this file, so only their
presence is modelled. -/
structure WGLExtensionFunctions where
  CreateContextAttribsARB : Option (Nat → List Int → Nat) := none
  GetExtensionsStringARB : Option String := none
  pixel_format_functions : Option WGLPixelFormatExtensionFunctions := none
  dx_interop_functions : Option Unit := none

/-- The `attrib_i_list` built by `Device::create_context_descriptor` from the
requested attribute flags. -/
def descriptor_attrib_i_list (flags : ContextAttributeFlags) : List Int :=
  let alpha_bits : Int := if flags.alpha then 8 else 0
  let depth_bits : Int := if flags.depth then 24 else 0
  let stencil_bits : Int := if flags.stencil then 8 else 0
  [WGL_DRAW_TO_WINDOW_ARB, GL_TRUE,
   WGL_SUPPORT_OPENGL_ARB, GL_TRUE,
   WGL_DOUBLE_BUFFER_ARB, GL_TRUE,
   WGL_PIXEL_TYPE_ARB, WGL_TYPE_RGBA_ARB,
   WGL_ACCELERATION_ARB, WGL_FULL_ACCELERATION_ARB,
   WGL_COLOR_BITS_ARB, 32,
   WGL_ALPHA_BITS_ARB, alpha_bits,
   WGL_DEPTH_BITS_ARB, depth_bits,
   WGL_STENCIL_BITS_ARB, stencil_bits,
   0]

/-- `ContextDescriptor`: the negotiated pixel format paired with the
requested GL version. -/
structure ContextDescriptor where
  pixel_format : Int
  gl_version : GLVersion
deriving DecidableEq

/-- `Device::create_context_descriptor`.  The source reads the
`wglChoosePixelFormatARB` entry point off the process-wide extension table
(through its `pixel_format_functions` entry) and fails with
`RequiredExtensionUnavailable` when it is absent; it then calls the driver
and maps a `FALSE` status to `PixelFormatSelectionFailed` and a zero format
count to `NoPixelFormatFound`. -/
def create_context_descriptor (ext : WGLExtensionFunctions)
    (attributes : ContextAttributes) : Except Error ContextDescriptor :=
  let attrib_i_list := descriptor_attrib_i_list attributes.flags
  match ext.pixel_format_functions with
  | none => Except.error Error.RequiredExtensionUnavailable
  | some pixel_format_functions =>
      let (ok, pixel_format, pixel_format_count) :=
        pixel_format_functions.ChoosePixelFormatARB attrib_i_list
      if ok = false then
        Except.error (Error.PixelFormatSelectionFailed WindowingApiError.Failed)
      else if pixel_format_count = 0 then
        Except.error Error.NoPixelFormatFound
      else
        Except.ok { pixel_format := pixel_format, gl_version := attributes.version }

/-- The value paired with attribute key `key` in a zero-terminated,
interleaved key/value attribute list. -/
def attribValue : List Int → Int → Option Int
  | k :: v :: rest, key =>
      if k = 0 then none else if k = key then some v else attribValue rest key
  | _, _ => none

/-! ### Context creation -/

/-- Per-call native outcomes consumed by `Device::create_context`: the DC of
the freshly created hidden window (for generic surfaces), the results of the
`DescribePixelFormat` / `SetPixelFormat` / `wglMakeCurrent` calls (each
guarded by an `assert`), and the outcome of `Device::create_surface` (the
native backing of the created surface, or its error). -/
structure CreateContextDriver where
  hidden_window_dc : Nat
  describe_pixel_format_count : Nat
  set_pixel_format_ok : Bool
  make_current_ok : Bool
  create_surface_result : Except Error Win32Objects

/-- Modelled from the spec: `Device::create_surface` (defined in
`super::surface`, not under the sources given here) synthesizes a `Surface`
bound to the given context — its `context_id` is the `id` of the context — or
fails with a typed error. -/
def create_surface (drv : CreateContextDriver) (context : Context)
    (_surface_type : SurfaceType) : Except Error Surface :=
  match drv.create_surface_result with
  | Except.error e => Except.error e
  | Except.ok win32_objects =>
      Except.ok { context_id := context.id, win32_objects := win32_objects }

/-- Modelled from the spec: `Device::lock_surface` (defined in
`super::surface`, not under the sources given here) locks the surface as part
of attachment; it does not alter the state modelled here. -/
def lock_surface (_surface : Surface) : Unit := ()

/-- Outcome of `Device::create_context`: a fresh context, a typed error, or a
panic from one of the internal `assert`s. -/
inductive CreateOutcome where
  | ok (context : Context)
  | err (e : Error)
  | panic (reason : PanicReason)
deriving DecidableEq

/-- The `wgl_attributes` list built by `Device::create_context`: a core
profile at the version of the descriptor. -/
def create_context_wgl_attributes (descriptor : ContextDescriptor) : List Int :=
  [WGL_CONTEXT_MAJOR_VERSION_ARB, (descriptor.gl_version.major : Int),
   WGL_CONTEXT_MINOR_VERSION_ARB, (descriptor.gl_version.minor : Int),
   WGL_CONTEXT_PROFILE_MASK_ARB, WGL_CONTEXT_CORE_PROFILE_BIT_ARB,
   0]

/-- `Device::create_context`.  `next_context_id` is the counter behind the
global `CREATE_CONTEXT_MUTEX`; the mutex serializes the whole body, so a
(possibly concurrent) sequence of calls is modelled by threading the counter
through sequential calls.  The identity is assigned and the counter bumped
only after the native context exists; a failure of the subsequent
`create_surface` call still consumes the identity.  The temporary activation
of the new context to load its GL function table is wrapped in a
`CurrentContextGuard` and therefore leaves the current (drawable, context)
pair of the calling thread unchanged; the loaded `Gl` table itself is not
modelled. -/
def create_context (ext : WGLExtensionFunctions) (drv : CreateContextDriver)
    (descriptor : ContextDescriptor) (surface_type : SurfaceType)
    (next_context_id : Nat) : CreateOutcome × Nat :=
  match ext.CreateContextAttribsARB with
  | none => (CreateOutcome.err Error.RequiredExtensionUnavailable, next_context_id)
  | some wglCreateContextAttribsARB =>
      -- `CREATE_CONTEXT_MUTEX.lock()` happens here.
      let hidden_window : Option Nat :=
        match surface_type with
        | SurfaceType.Widget _ => none
        | SurfaceType.Generic => some drv.hidden_window_dc
      let dc : Nat :=
        match surface_type with
        | SurfaceType.Widget native_widget => winuser_GetDC native_widget
        | SurfaceType.Generic => drv.hidden_window_dc
      if drv.describe_pixel_format_count = 0 then
        (CreateOutcome.panic PanicReason.assertionFailed, next_context_id)
      else if drv.set_pixel_format_ok = false then
        (CreateOutcome.panic PanicReason.assertionFailed, next_context_id)
      else
        let glrc := wglCreateContextAttribsARB dc (create_context_wgl_attributes descriptor)
        if glrc = 0 then
          (CreateOutcome.err (Error.ContextCreationFailed WindowingApiError.Failed),
           next_context_id)
        else if drv.make_current_ok = false then
          (CreateOutcome.panic PanicReason.assertionFailed, next_context_id)
        else
          let context : Context :=
            { id := next_context_id, glrc := glrc, hidden_window := hidden_window,
              framebuffer := Framebuffer.none }
          let next_context_id := next_context_id + 1
          match create_surface drv context surface_type with
          | Except.error e => (CreateOutcome.err e, next_context_id)
          | Except.ok surface =>
              let _ := lock_surface surface
              (CreateOutcome.ok { context with framebuffer := Framebuffer.surface surface },
               next_context_id)

/-- Run a sequence of `create_context` calls (serialized by
`CREATE_CONTEXT_MUTEX`) and collect the identities of the successfully
created contexts, in order, together with the final counter. -/
def run_create_contexts (ext : WGLExtensionFunctions)
    (descriptor : ContextDescriptor) (surface_type : SurfaceType) :
    List CreateContextDriver → Nat → List Nat × Nat
  | [], next_context_id => ([], next_context_id)
  | drv :: drvs, next_context_id =>
      let (outcome, next') := create_context ext drv descriptor surface_type next_context_id
      let (ids, final) := run_create_contexts ext descriptor surface_type drvs next'
      match outcome with
      | CreateOutcome.ok context => (context.id :: ids, final)
      | _ => (ids, final)

/-! ### Extension loading -/

/-- The driver capabilities visible to `extension_loader_window_proc`:
whether `wglGetExtensionsStringARB` resolves (and, if so, the extension
string it reports), and the pointers `wglGetProcAddress` yields for the
extension entry points (`CreateContextAttribsARB` keeps its nullable
`Option` type; the pixel-format pointers are stored untested, as the source
transmutes them unchecked). -/
structure ExtensionDriver where
  getExtensionsStringARB : Option String
  choosePixelFormatARB : List Int → Bool × Int × Nat
  getPixelFormatAttribivARB : Unit
  createContextAttribsARB : Option (Nat → List Int → Nat)

/-- Helper for `split_space`, structural on the character list. -/
def split_space_aux : List Char → List (List Char)
  | [] => [[]]
  | c :: cs =>
      match split_space_aux cs with
      | [] => [[]]
      | r :: rs => if c = ' ' then [] :: r :: rs else (c :: r) :: rs

/-- `str::split` with the single-space separator, as applied to the driver
extension string: splitting the empty string yields one empty token, and
consecutive separators yield empty tokens, matching the Rust iterator. -/
def split_space (s : String) : List String :=
  (split_space_aux s.data).map (fun cs => String.mk cs)

/-- One iteration of the extension loop in `extension_loader_window_proc`:
populate the table entry matching one token of the extension string, leaving
the table unchanged for unrecognized tokens. -/
def load_extension_function (drv : ExtensionDriver)
    (functions : WGLExtensionFunctions) (extension : String) :
    WGLExtensionFunctions :=
  if extension = "WGL_ARB_pixel_format" then
    let pixel_format_functions : WGLPixelFormatExtensionFunctions :=
      { ChoosePixelFormatARB := drv.choosePixelFormatARB,
        GetPixelFormatAttribivARB := drv.getPixelFormatAttribivARB }
    { functions with pixel_format_functions := some pixel_format_functions }
  else if extension = "WGL_ARB_create_context" then
    { functions with CreateContextAttribsARB := drv.createContextAttribsARB }
  else if extension = "WGL_NV_DX_interop" then
    { functions with dx_interop_functions := some () }
  else functions

/-- `extension_loader_window_proc`, `WM_CREATE` arm: after creating the
throwaway context on the false window, resolve `wglGetExtensionsStringARB`,
read the extension string (empty when the symbol is absent), and populate a
table entry for each recognized token of the space-separated string; a
capability the driver does not advertise leaves its entry absent. -/
def extension_loader_window_proc (drv : ExtensionDriver) : WGLExtensionFunctions :=
  let functions : WGLExtensionFunctions :=
    { GetExtensionsStringARB := drv.getExtensionsStringARB }
  let extensions : String :=
    match functions.GetExtensionsStringARB with
    | some s => s
    | none => ""
  (split_space extensions).foldl (load_extension_function drv) functions

/-- `extension_loader_thread`: the bootstrap spawned by the
`WGL_EXTENSION_FUNCTIONS` lazy static.  It creates a false window on its own
dedicated thread; the window procedure fills in the table during `WM_CREATE`
and destroys the throwaway context and window, and the joined thread returns
the table.  The spawn/join pair is modelled by its returned value. -/
def extension_loader_thread (drv : ExtensionDriver) : WGLExtensionFunctions :=
  extension_loader_window_proc drv

/-- One access to the `WGL_EXTENSION_FUNCTIONS` lazy static: the cell is
filled by running `extension_loader_thread` on first access and left
untouched afterwards.  Returns the observed table, the updated cell, and the
number of bootstrap executions this access performed. -/
def resolve_extension_functions (drv : ExtensionDriver) :
    Option WGLExtensionFunctions →
    WGLExtensionFunctions × Option WGLExtensionFunctions × Nat
  | some functions => (functions, some functions, 0)
  | none =>
      let functions := extension_loader_thread drv
      (functions, some functions, 1)

/-- A sequence of `n` accesses to the `WGL_EXTENSION_FUNCTIONS` lazy static
(serialized by its one-time initialization): the list of observed tables, the
final cell, and the total number of bootstrap executions. -/
def resolve_extension_functions_trace (drv : ExtensionDriver) :
    Nat → Option WGLExtensionFunctions →
    List WGLExtensionFunctions × Option WGLExtensionFunctions × Nat
  | 0, cell => ([], cell, 0)
  | n + 1, cell =>
      let (functions, cell', k) := resolve_extension_functions drv cell
      let (rest, cellf, kf) := resolve_extension_functions_trace drv n cell'
      (functions :: rest, cellf, k + kf)

/-! ### The current-context guard -/

/-- `CurrentContextGuard`: the saved (drawable, context) pair. -/
structure CurrentContextGuard where
  old_dc : Nat
  old_glrc : Nat
deriving DecidableEq

/-- `CurrentContextGuard::new`: capture the currently active
(drawable, context) pair of the calling thread. -/
def CurrentContextGuard.new (ts : ThreadState) : CurrentContextGuard :=
  { old_dc := wglGetCurrentDC ts, old_glrc := wglGetCurrentContext ts }

/-- `Drop for CurrentContextGuard`: restore the captured pair via
`wglMakeCurrent`, discarding the `BOOL` status of the restore call itself. -/
def CurrentContextGuard.drop (guard : CurrentContextGuard) (ts : ThreadState) :
    ThreadState :=
  (wglMakeCurrent guard.old_dc guard.old_glrc ts).2

/-- A scope that holds a `CurrentContextGuard`: the guard is constructed on
entry, the body runs (returning normally or propagating an error), and the
`Drop` of the guard runs on every exit path. -/
def with_current_context_guard {ε α : Type} (body : ThreadState → Except ε α × ThreadState)
    (ts : ThreadState) : Except ε α × ThreadState :=
  let guard := CurrentContextGuard.new ts
  let (result, ts1) := body ts
  (result, guard.drop ts1)

/-! ## Theorems -/

/-- C6: `attach_surface` succeeds and transitions the framebuffer to an owned
surface exactly when the framebuffer is `Empty`; from any other state
(`OwnedSurface` or `ExternalDrawable`) it panics with the
surface-already-present programming error, leaving no way to silently
overwrite an existing attachment. -/
theorem attach_surface_only_from_empty (context : Context) (surface : Surface) :
    (context.framebuffer = Framebuffer.none →
      attach_surface context surface =
        Except.ok { context with framebuffer := Framebuffer.surface surface }) ∧
    (context.framebuffer ≠ Framebuffer.none →
      attach_surface context surface =
        Except.error PanicReason.surfaceAlreadyPresent) := by
  rcases context with ⟨cid, glrc, hw, fb⟩
  cases fb <;> simp [attach_surface]

/-- Witness for C6: a concrete attach from `Empty` succeeds and a concrete
attach onto an external drawable panics. -/
theorem attach_surface_only_from_empty_witness :
    attach_surface ⟨1, 2, none, Framebuffer.none⟩ ⟨1, Win32Objects.texture⟩ =
      Except.ok ⟨1, 2, none, Framebuffer.surface ⟨1, Win32Objects.texture⟩⟩ ∧
    attach_surface ⟨1, 2, none, Framebuffer.external 3⟩ ⟨1, Win32Objects.texture⟩ =
      Except.error PanicReason.surfaceAlreadyPresent :=
  ⟨(attach_surface_only_from_empty _ _).1 rfl,
   (attach_surface_only_from_empty _ _).2 (by decide)⟩

/-- C2 counterexample: on a context holding an external drawable,
`release_surface` returns nothing but is NOT a no-op — the `mem::replace`
already swapped `Framebuffer::None` in, so the external drawable reference is
dropped and the framebuffer ends up `Empty`. -/
theorem release_surface_external_not_noop :
    (release_surface ⟨4, 5, none, Framebuffer.external 7⟩).1 = none ∧
    (release_surface ⟨4, 5, none, Framebuffer.external 7⟩).2 ≠
      ⟨4, 5, none, Framebuffer.external 7⟩ ∧
    (release_surface ⟨4, 5, none, Framebuffer.external 7⟩).2.framebuffer =
      Framebuffer.none := by
  decide

/-- C2 amended: `release_surface` detaches and returns the attached surface
when the framebuffer is `OwnedSurface`; from `Empty` it returns nothing and
leaves the context unchanged; from `ExternalDrawable` it returns nothing but
resets the framebuffer to `Empty`, dropping the external drawable
reference. -/
theorem release_surface_amended (context : Context) :
    (∀ surface, context.framebuffer = Framebuffer.surface surface →
      release_surface context =
        (some surface, { context with framebuffer := Framebuffer.none })) ∧
    (context.framebuffer = Framebuffer.none →
      release_surface context = (none, context)) ∧
    (∀ dc, context.framebuffer = Framebuffer.external dc →
      release_surface context =
        (none, { context with framebuffer := Framebuffer.none })) := by
  rcases context with ⟨cid, glrc, hw, fb⟩
  cases fb <;> simp [release_surface]

/-- Witness for C2 (amended): concrete releases from all three framebuffer
states. -/
theorem release_surface_amended_witness :
    release_surface ⟨0, 1, none, Framebuffer.surface ⟨0, Win32Objects.texture⟩⟩ =
      (some ⟨0, Win32Objects.texture⟩, ⟨0, 1, none, Framebuffer.none⟩) ∧
    release_surface ⟨0, 1, none, Framebuffer.none⟩ =
      (none, ⟨0, 1, none, Framebuffer.none⟩) ∧
    release_surface ⟨0, 1, none, Framebuffer.external 7⟩ =
      (none, ⟨0, 1, none, Framebuffer.none⟩) :=
  ⟨(release_surface_amended _).1 _ rfl,
   (release_surface_amended _).2.1 rfl,
   (release_surface_amended _).2.2 7 rfl⟩

/-- C10: from the `Empty` framebuffer state, `replace_context_surface` with a
compatible surface has no typed-error result: the `expect` on the absent old
surface panics. -/
theorem replace_context_surface_empty_panics (ts : ThreadState) (context : Context)
    (new_surface : Surface) (hfb : context.framebuffer = Framebuffer.none)
    (hid : new_surface.context_id = context.id) :
    (replace_context_surface ts context new_surface).1 =
      ReplaceOutcome.panic PanicReason.missingSurface := by
  rcases context with ⟨cid, glrc, hw, fb⟩
  dsimp at hfb hid
  subst hfb
  simp [replace_context_surface, release_surface, hid]

/-- Witness for C10: a concrete replace from `Empty` with a matching
`context_id` panics on the missing old surface. -/
theorem replace_context_surface_empty_panics_witness :
    (replace_context_surface ⟨0, 0⟩ ⟨2, 3, none, Framebuffer.none⟩
        ⟨2, Win32Objects.texture⟩).1 =
      ReplaceOutcome.panic PanicReason.missingSurface :=
  replace_context_surface_empty_panics _ _ _ rfl rfl

/-- C1 counterexample: on a context whose framebuffer is an external
drawable, `replace_context_surface` with an incompatible surface
(`context_id` 1 against context `id` 0) does NOT fail with
`IncompatibleSurface`: the external-target check runs first and the call
fails with `ExternalRenderTarget`. -/
theorem replace_incompatible_on_external_counterexample :
    (replace_context_surface ⟨0, 0⟩ ⟨0, 1, none, Framebuffer.external 7⟩
        ⟨1, Win32Objects.texture⟩).1 ≠
      ReplaceOutcome.err Error.IncompatibleSurface ∧
    (replace_context_surface ⟨0, 0⟩ ⟨0, 1, none, Framebuffer.external 7⟩
        ⟨1, Win32Objects.texture⟩).1 =
      ReplaceOutcome.err Error.ExternalRenderTarget := by
  decide

/-- C1 amended: `replace_context_surface` with a surface whose `context_id`
differs from the context `id` always fails and leaves both the framebuffer
state and the thread state unchanged; the error is `IncompatibleSurface` when
the framebuffer is `Empty` or `OwnedSurface`, but `ExternalRenderTarget` when
it is `ExternalDrawable`, because the external-target check precedes the
compatibility check. -/
theorem replace_incompatible_surface_amended (ts : ThreadState) (context : Context)
    (new_surface : Surface) (hid : new_surface.context_id ≠ context.id) :
    (replace_context_surface ts context new_surface).2.1 = context ∧
    (replace_context_surface ts context new_surface).2.2 = ts ∧
    (∀ dc, context.framebuffer = Framebuffer.external dc →
      (replace_context_surface ts context new_surface).1 =
        ReplaceOutcome.err Error.ExternalRenderTarget) ∧
    ((∀ dc, context.framebuffer ≠ Framebuffer.external dc) →
      (replace_context_surface ts context new_surface).1 =
        ReplaceOutcome.err Error.IncompatibleSurface) := by
  rcases context with ⟨cid, glrc, hw, fb⟩
  dsimp at hid
  have hid' : cid ≠ new_surface.context_id := fun h => hid h.symm
  cases fb <;> simp [replace_context_surface, hid']

/-- Witness for C1 (amended): a concrete incompatible replace onto an owned
surface fails with `IncompatibleSurface` and changes nothing, and a concrete
incompatible replace onto an external drawable fails with
`ExternalRenderTarget` and changes nothing. -/
theorem replace_incompatible_surface_amended_witness :
    replace_context_surface ⟨0, 0⟩
        ⟨0, 1, none, Framebuffer.surface ⟨0, Win32Objects.texture⟩⟩
        ⟨1, Win32Objects.texture⟩ =
      (ReplaceOutcome.err Error.IncompatibleSurface,
       ⟨0, 1, none, Framebuffer.surface ⟨0, Win32Objects.texture⟩⟩, ⟨0, 0⟩) ∧
    replace_context_surface ⟨0, 0⟩ ⟨0, 1, none, Framebuffer.external 7⟩
        ⟨1, Win32Objects.texture⟩ =
      (ReplaceOutcome.err Error.ExternalRenderTarget,
       ⟨0, 1, none, Framebuffer.external 7⟩, ⟨0, 0⟩) := by
  constructor
  · have h := replace_incompatible_surface_amended ⟨0, 0⟩
      ⟨0, 1, none, Framebuffer.surface ⟨0, Win32Objects.texture⟩⟩
      ⟨1, Win32Objects.texture⟩ (by decide)
    have h4 := h.2.2.2 (by simp)
    exact Prod.ext h4 (Prod.ext h.1 h.2.1)
  · have h := replace_incompatible_surface_amended ⟨0, 0⟩
      ⟨0, 1, none, Framebuffer.external 7⟩ ⟨1, Win32Objects.texture⟩ (by decide)
    have h3 := h.2.2.1 7 rfl
    exact Prod.ext h3 (Prod.ext h.1 h.2.1)

/-- C5: on a context holding an external drawable, `replace_context_surface`
fails with `ExternalRenderTarget` and changes neither the context nor the
thread state; on a context owning a surface, given a compatible new surface
(and a drawable for it, which the source asserts), it detaches the old
surface, attaches the new one, re-activates the context exactly when the
context was the active context of the calling thread at entry, and returns
the detached old surface. -/
theorem replace_context_surface_spec (ts : ThreadState) (context : Context)
    (new_surface : Surface) :
    (∀ dc, context.framebuffer = Framebuffer.external dc →
      replace_context_surface ts context new_surface =
        (ReplaceOutcome.err Error.ExternalRenderTarget, context, ts)) ∧
    (∀ old_surface dcNew,
      context.framebuffer = Framebuffer.surface old_surface →
      new_surface.context_id = context.id →
      get_context_dc { context with framebuffer := Framebuffer.surface new_surface } =
        some dcNew →
      replace_context_surface ts context new_surface =
        (ReplaceOutcome.ok old_surface,
         { context with framebuffer := Framebuffer.surface new_surface },
         if context_is_current ts context then
           { dc := dcNew, glrc := context.glrc }
         else ts)) := by
  rcases context with ⟨cid, glrc, hw, fb⟩
  constructor
  · intro dc hfb
    dsimp at hfb
    subst hfb
    simp [replace_context_surface]
  · intro old_surface dcNew hfb hid hdc
    dsimp at hfb hid
    subst hfb
    have hid' : ¬ (cid ≠ new_surface.context_id) := by
      intro h
      exact h hid.symm
    by_cases hcur : context_is_current ts ⟨cid, glrc, hw, Framebuffer.surface old_surface⟩ <;>
      simp [replace_context_surface, release_surface, attach_surface, hid', hcur,
        make_context_current, hdc, wglMakeCurrent]

/-- Witness for C5: a concrete replace on an external-drawable context fails
with `ExternalRenderTarget` and changes nothing; a concrete compatible
replace on a surface-owning, non-active context swaps the surface, returns
the old one, and does not touch the thread state. -/
theorem replace_context_surface_spec_witness :
    replace_context_surface ⟨0, 0⟩ ⟨0, 1, none, Framebuffer.external 7⟩
        ⟨0, Win32Objects.texture⟩ =
      (ReplaceOutcome.err Error.ExternalRenderTarget,
       ⟨0, 1, none, Framebuffer.external 7⟩, ⟨0, 0⟩) ∧
    replace_context_surface ⟨0, 0⟩
        ⟨0, 1, some 9, Framebuffer.surface ⟨0, Win32Objects.window 4⟩⟩
        ⟨0, Win32Objects.window 5⟩ =
      (ReplaceOutcome.ok ⟨0, Win32Objects.window 4⟩,
       ⟨0, 1, some 9, Framebuffer.surface ⟨0, Win32Objects.window 5⟩⟩, ⟨0, 0⟩) := by
  constructor
  · exact (replace_context_surface_spec _ _ _).1 7 rfl
  · have h := (replace_context_surface_spec ⟨0, 0⟩
      ⟨0, 1, some 9, Framebuffer.surface ⟨0, Win32Objects.window 4⟩⟩
      ⟨0, Win32Objects.window 5⟩).2 ⟨0, Win32Objects.window 4⟩ 5 rfl rfl rfl
    rw [h]
    decide

/-- C7: the guard captures the active (drawable, context) pair at
construction and, on every exit path of the guarded body (normal return or
propagated error, whose result it passes through unchanged), restores exactly
that pair; nesting a guarded scope inside another still restores the
outermost snapshot. -/
theorem current_context_guard_symmetry {ε α : Type}
    (body inner : ThreadState → Except ε α × ThreadState) (ts : ThreadState) :
    (with_current_context_guard body ts).2 = ts ∧
    (with_current_context_guard body ts).1 = (body ts).1 ∧
    (with_current_context_guard
        (fun t => with_current_context_guard inner t) ts).2 = ts := by
  refine ⟨?_, rfl, ?_⟩ <;>
    simp [with_current_context_guard, CurrentContextGuard.new,
      CurrentContextGuard.drop, wglMakeCurrent, wglGetCurrentDC,
      wglGetCurrentContext]

/-- Witness for C7: a body that makes another pair current and then fails
still leaves the original pair restored, with the error passed through. -/
theorem current_context_guard_symmetry_witness :
    (with_current_context_guard
        (fun _ => ((Except.error Error.ExternalRenderTarget : Except Error Unit),
          (⟨5, 6⟩ : ThreadState))) ⟨1, 2⟩).2 = ⟨1, 2⟩ ∧
    (with_current_context_guard
        (fun t => with_current_context_guard
          (fun _ => ((Except.ok () : Except Error Unit), (⟨7, 8⟩ : ThreadState))) t)
        ⟨1, 2⟩).2 = ⟨1, 2⟩ :=
  ⟨(current_context_guard_symmetry _
      (fun _ => ((Except.ok () : Except Error Unit), ⟨7, 8⟩)) ⟨1, 2⟩).1,
   (current_context_guard_symmetry
      (fun _ => ((Except.error Error.ExternalRenderTarget : Except Error Unit), ⟨5, 6⟩))
      (fun _ => ((Except.ok () : Except Error Unit), ⟨7, 8⟩)) ⟨1, 2⟩).2.2⟩

/-- C3: `create_context_descriptor` fails with `RequiredExtensionUnavailable`
when the extended pixel-format enumeration entry point is absent from the
extension table; otherwise it fails with `PixelFormatSelectionFailed` when
the driver call itself reports failure, and with `NoPixelFormatFound` when
the call succeeds but enumerates zero matching formats. -/
theorem create_context_descriptor_errors (ext : WGLExtensionFunctions)
    (attributes : ContextAttributes) :
    (ext.pixel_format_functions = none →
      create_context_descriptor ext attributes =
        Except.error Error.RequiredExtensionUnavailable) ∧
    (∀ pf, ext.pixel_format_functions = some pf →
      (pf.ChoosePixelFormatARB (descriptor_attrib_i_list attributes.flags)).1 = false →
      create_context_descriptor ext attributes =
        Except.error (Error.PixelFormatSelectionFailed WindowingApiError.Failed)) ∧
    (∀ pf, ext.pixel_format_functions = some pf →
      (pf.ChoosePixelFormatARB (descriptor_attrib_i_list attributes.flags)).1 = true →
      (pf.ChoosePixelFormatARB (descriptor_attrib_i_list attributes.flags)).2.2 = 0 →
      create_context_descriptor ext attributes =
        Except.error Error.NoPixelFormatFound) := by
  refine ⟨?_, ?_, ?_⟩
  · intro h
    simp [create_context_descriptor, h]
  · intro pf hpf hfail
    rcases hcall : pf.ChoosePixelFormatARB (descriptor_attrib_i_list attributes.flags)
      with ⟨ok, pixel_format, pixel_format_count⟩
    rw [hcall] at hfail
    dsimp at hfail
    subst hfail
    simp [create_context_descriptor, hpf, hcall]
  · intro pf hpf hok hzero
    rcases hcall : pf.ChoosePixelFormatARB (descriptor_attrib_i_list attributes.flags)
      with ⟨ok, pixel_format, pixel_format_count⟩
    rw [hcall] at hok hzero
    dsimp at hok hzero
    subst hok
    subst hzero
    simp [create_context_descriptor, hpf, hcall]

/-- Witness for C3: with no pixel-format extension the negotiator reports
`RequiredExtensionUnavailable`; with a driver whose call fails it reports
`PixelFormatSelectionFailed`; and — the spec scenario — requesting
`{alpha: true, depth: true, stencil: false}` against a driver reporting zero
matching formats returns `NoPixelFormatFound`. -/
theorem create_context_descriptor_errors_witness :
    create_context_descriptor {} ⟨⟨true, true, false⟩, ⟨4, 5⟩⟩ =
      Except.error Error.RequiredExtensionUnavailable ∧
    create_context_descriptor
        { pixel_format_functions := some ⟨fun _ => (false, 0, 0), ()⟩ }
        ⟨⟨true, true, false⟩, ⟨4, 5⟩⟩ =
      Except.error (Error.PixelFormatSelectionFailed WindowingApiError.Failed) ∧
    create_context_descriptor
        { pixel_format_functions := some ⟨fun _ => (true, 3, 0), ()⟩ }
        ⟨⟨true, true, false⟩, ⟨4, 5⟩⟩ =
      Except.error Error.NoPixelFormatFound :=
  ⟨(create_context_descriptor_errors {} _).1 rfl,
   (create_context_descriptor_errors _ _).2.1 ⟨fun _ => (false, 0, 0), ()⟩ rfl rfl,
   (create_context_descriptor_errors _ _).2.2 ⟨fun _ => (true, 3, 0), ()⟩ rfl rfl rfl⟩

/-- C4: when `create_context_descriptor` succeeds, the returned descriptor
pairs the driver-chosen pixel format with the requested (unvalidated) GL
version, and the attribute list sent to the driver requests double-buffering,
full hardware acceleration and 32-bit color unconditionally, with alpha bits
8 exactly when the `ALPHA` flag is set (else 0), depth bits 24 exactly when
`DEPTH` is set (else 0), and stencil bits 8 exactly when `STENCIL` is set
(else 0). -/
theorem create_context_descriptor_success (ext : WGLExtensionFunctions)
    (pf : WGLPixelFormatExtensionFunctions) (attributes : ContextAttributes)
    (descriptor : ContextDescriptor)
    (hpf : ext.pixel_format_functions = some pf)
    (hok : create_context_descriptor ext attributes = Except.ok descriptor) :
    descriptor.gl_version = attributes.version ∧
    descriptor.pixel_format =
      (pf.ChoosePixelFormatARB (descriptor_attrib_i_list attributes.flags)).2.1 ∧
    attribValue (descriptor_attrib_i_list attributes.flags) WGL_DOUBLE_BUFFER_ARB =
      some GL_TRUE ∧
    attribValue (descriptor_attrib_i_list attributes.flags) WGL_ACCELERATION_ARB =
      some WGL_FULL_ACCELERATION_ARB ∧
    attribValue (descriptor_attrib_i_list attributes.flags) WGL_COLOR_BITS_ARB =
      some 32 ∧
    attribValue (descriptor_attrib_i_list attributes.flags) WGL_ALPHA_BITS_ARB =
      some (if attributes.flags.alpha then 8 else 0) ∧
    attribValue (descriptor_attrib_i_list attributes.flags) WGL_DEPTH_BITS_ARB =
      some (if attributes.flags.depth then 24 else 0) ∧
    attribValue (descriptor_attrib_i_list attributes.flags) WGL_STENCIL_BITS_ARB =
      some (if attributes.flags.stencil then 8 else 0) := by
  have hlist : ∀ flags : ContextAttributeFlags,
      attribValue (descriptor_attrib_i_list flags) WGL_DOUBLE_BUFFER_ARB =
        some GL_TRUE ∧
      attribValue (descriptor_attrib_i_list flags) WGL_ACCELERATION_ARB =
        some WGL_FULL_ACCELERATION_ARB ∧
      attribValue (descriptor_attrib_i_list flags) WGL_COLOR_BITS_ARB = some 32 ∧
      attribValue (descriptor_attrib_i_list flags) WGL_ALPHA_BITS_ARB =
        some (if flags.alpha then 8 else 0) ∧
      attribValue (descriptor_attrib_i_list flags) WGL_DEPTH_BITS_ARB =
        some (if flags.depth then 24 else 0) ∧
      attribValue (descriptor_attrib_i_list flags) WGL_STENCIL_BITS_ARB =
        some (if flags.stencil then 8 else 0) := by
    intro flags
    rcases flags with ⟨a, d, s⟩
    cases a <;> cases d <;> cases s <;> decide
  rw [create_context_descriptor, hpf] at hok
  dsimp at hok
  split at hok
  · simp at hok
  · split at hok
    · simp at hok
    · rw [Except.ok.injEq] at hok
      subst hok
      exact ⟨rfl, rfl, hlist attributes.flags⟩

/-- Witness for C4: a concrete successful negotiation with
`{alpha: true, depth: false, stencil: true}` returns the driver-chosen
format 42 paired with the requested version 3.3, and the request carries
double-buffering, full acceleration, 32-bit color, 8 alpha bits, 0 depth
bits and 8 stencil bits. -/
theorem create_context_descriptor_success_witness :
    ((⟨42, ⟨3, 3⟩⟩ : ContextDescriptor).gl_version = GLVersion.mk 3 3 ∧
     (⟨42, ⟨3, 3⟩⟩ : ContextDescriptor).pixel_format = 42 ∧
     attribValue (descriptor_attrib_i_list ⟨true, false, true⟩)
       WGL_DOUBLE_BUFFER_ARB = some GL_TRUE ∧
     attribValue (descriptor_attrib_i_list ⟨true, false, true⟩)
       WGL_ACCELERATION_ARB = some WGL_FULL_ACCELERATION_ARB ∧
     attribValue (descriptor_attrib_i_list ⟨true, false, true⟩)
       WGL_COLOR_BITS_ARB = some 32 ∧
     attribValue (descriptor_attrib_i_list ⟨true, false, true⟩)
       WGL_ALPHA_BITS_ARB = some 8 ∧
     attribValue (descriptor_attrib_i_list ⟨true, false, true⟩)
       WGL_DEPTH_BITS_ARB = some 0 ∧
     attribValue (descriptor_attrib_i_list ⟨true, false, true⟩)
       WGL_STENCIL_BITS_ARB = some 8) := by
  have h := create_context_descriptor_success
    { pixel_format_functions := some ⟨fun _ => (true, 42, 1), ()⟩ }
    ⟨fun _ => (true, 42, 1), ()⟩ ⟨⟨true, false, true⟩, ⟨3, 3⟩⟩ ⟨42, ⟨3, 3⟩⟩ rfl rfl
  simpa using h

/-- One `create_context` call moves the identity counter by at most one, and
a successful call assigns the entry counter value as the new context identity
and bumps the counter by exactly one. -/
theorem create_context_counter_step (ext : WGLExtensionFunctions)
    (drv : CreateContextDriver) (descriptor : ContextDescriptor)
    (surface_type : SurfaceType) (n : Nat) :
    ((create_context ext drv descriptor surface_type n).2 = n ∨
     (create_context ext drv descriptor surface_type n).2 = n + 1) ∧
    ∀ context,
      (create_context ext drv descriptor surface_type n).1 =
        CreateOutcome.ok context →
      context.id = n ∧
      (create_context ext drv descriptor surface_type n).2 = n + 1 := by
  cases hca : ext.CreateContextAttribsARB with
  | none => simp [create_context, hca]
  | some wglCreateContextAttribsARB =>
      cases hcs : drv.create_surface_result with
      | error e =>
          simp only [create_context, create_surface, hca, hcs]
          split_ifs <;> simp
      | ok win32_objects =>
          simp only [create_context, create_surface, hca, hcs]
          split_ifs <;> simp

/-- C8: over any sequence of `create_context` calls — serialized by the
global creation mutex, so concurrent callers are modelled by an arbitrary
interleaving order — the identities of the successfully created contexts
form a strictly increasing sequence with no duplicates; every assigned
identity lies in the window from the starting counter (inclusive) up to the
final counter (exclusive), so identities are never reused by later
creations. -/
theorem create_context_ids_strictly_increasing (ext : WGLExtensionFunctions)
    (descriptor : ContextDescriptor) (surface_type : SurfaceType) :
    ∀ (drvs : List CreateContextDriver) (n : Nat),
      ((run_create_contexts ext descriptor surface_type drvs n).1).Pairwise (· < ·) ∧
      (∀ i ∈ (run_create_contexts ext descriptor surface_type drvs n).1,
        n ≤ i ∧ i < (run_create_contexts ext descriptor surface_type drvs n).2) ∧
      n ≤ (run_create_contexts ext descriptor surface_type drvs n).2 := by
  intro drvs
  induction drvs with
  | nil => intro n; simp [run_create_contexts]
  | cons drv drvs ih =>
      intro n
      have hstep := create_context_counter_step ext drv descriptor surface_type n
      rcases hout : create_context ext drv descriptor surface_type n with ⟨outcome, n'⟩
      rw [hout] at hstep
      obtain ⟨hn', hok⟩ := hstep
      dsimp at hn' hok
      have ih' := ih n'
      rcases hrun : run_create_contexts ext descriptor surface_type drvs n'
        with ⟨ids, final⟩
      rw [hrun] at ih'
      dsimp at ih'
      obtain ⟨hpw, hbounds, hfinal⟩ := ih'
      have hnn' : n ≤ n' := by rcases hn' with h | h <;> omega
      cases outcome with
      | ok context =>
          obtain ⟨hid, hsucc⟩ := hok context rfl
          simp only [run_create_contexts, hout, hrun]
          refine ⟨?_, ?_, ?_⟩
          · refine List.pairwise_cons.2 ⟨?_, hpw⟩
            intro i hi
            have := (hbounds i hi).1
            omega
          · intro i hi
            rcases List.mem_cons.1 hi with h | h
            · subst h
              constructor
              · omega
              · have : n' ≤ final := hfinal
                omega
            · have := hbounds i h
              omega
          · omega
      | err e =>
          simp only [run_create_contexts, hout, hrun]
          refine ⟨hpw, ?_, ?_⟩
          · intro i hi
            have := hbounds i hi
            omega
          · omega
      | panic reason =>
          simp only [run_create_contexts, hout, hrun]
          refine ⟨hpw, ?_, ?_⟩
          · intro i hi
            have := hbounds i hi
            omega
          · omega

/-- Witness for C8: a concrete run of four creation attempts from counter 5 —
success, context-creation failure (consumes no identity), surface-creation
failure (consumes an identity), success — yields identities `[5, 7]`,
strictly increasing. -/
theorem create_context_ids_strictly_increasing_witness :
    (run_create_contexts { CreateContextAttribsARB := some (fun dc _ => dc) }
        ⟨1, ⟨3, 2⟩⟩ SurfaceType.Generic
        [⟨3, 1, true, true, Except.ok Win32Objects.texture⟩,
         ⟨0, 1, true, true, Except.ok Win32Objects.texture⟩,
         ⟨4, 1, true, true,
          Except.error (Error.SurfaceCreationFailed WindowingApiError.Failed)⟩,
         ⟨6, 1, true, true, Except.ok Win32Objects.texture⟩] 5).1 = [5, 7] ∧
    ((run_create_contexts { CreateContextAttribsARB := some (fun dc _ => dc) }
        ⟨1, ⟨3, 2⟩⟩ SurfaceType.Generic
        [⟨3, 1, true, true, Except.ok Win32Objects.texture⟩,
         ⟨0, 1, true, true, Except.ok Win32Objects.texture⟩,
         ⟨4, 1, true, true,
          Except.error (Error.SurfaceCreationFailed WindowingApiError.Failed)⟩,
         ⟨6, 1, true, true, Except.ok Win32Objects.texture⟩] 5).1).Pairwise (· < ·) :=
  ⟨by decide,
   (create_context_ids_strictly_increasing
      { CreateContextAttribsARB := some (fun dc _ => dc) } ⟨1, ⟨3, 2⟩⟩
      SurfaceType.Generic
      [⟨3, 1, true, true, Except.ok Win32Objects.texture⟩,
       ⟨0, 1, true, true, Except.ok Win32Objects.texture⟩,
       ⟨4, 1, true, true,
        Except.error (Error.SurfaceCreationFailed WindowingApiError.Failed)⟩,
       ⟨6, 1, true, true, Except.ok Win32Objects.texture⟩] 5).1⟩

/-- Once the lazy-static cell is filled with a table, further accesses all
observe that table and perform no further bootstrap executions. -/
theorem resolve_trace_filled (drv : ExtensionDriver)
    (functions : WGLExtensionFunctions) :
    ∀ n : Nat,
      (resolve_extension_functions_trace drv n (some functions)).1 =
        List.replicate n functions ∧
      (resolve_extension_functions_trace drv n (some functions)).2.2 = 0 := by
  intro n
  induction n with
  | zero => simp [resolve_extension_functions_trace]
  | succ m ih =>
      simp only [resolve_extension_functions_trace, resolve_extension_functions,
        List.replicate]
      exact ⟨by rw [ih.1], by rw [ih.2]⟩

/-- A token that never occurs in the extension string leaves the
pixel-format entry of the table untouched across the whole loading loop. -/
theorem load_extension_functions_pixel_format_absent (drv : ExtensionDriver) :
    ∀ (tokens : List String) (functions : WGLExtensionFunctions),
      "WGL_ARB_pixel_format" ∉ tokens →
      (tokens.foldl (load_extension_function drv) functions).pixel_format_functions =
        functions.pixel_format_functions := by
  intro tokens
  induction tokens with
  | nil => intro functions _; rfl
  | cons t ts ih =>
      intro functions hmem
      have ht : ¬ (t = "WGL_ARB_pixel_format") := by
        intro h
        exact hmem (by rw [h]; exact List.mem_cons_self _ _)
      have hts : "WGL_ARB_pixel_format" ∉ ts :=
        fun h => hmem (List.mem_cons_of_mem _ h)
      rw [List.foldl_cons, ih _ hts]
      by_cases h2 : t = "WGL_ARB_create_context"
      · simp [load_extension_function, ht, h2]
      · by_cases h3 : t = "WGL_NV_DX_interop"
        · simp [load_extension_function, ht, h2, h3]
        · simp [load_extension_function, ht, h2, h3]

/-- C9: accesses to the `WGL_EXTENSION_FUNCTIONS` lazy static — serialized by
its one-time initialization, which joins a single bootstrap run on a
dedicated loader thread — execute the bootstrap exactly once however many
accesses occur, every access observes the same fully populated table, and a
capability the driver does not advertise (here the pixel-format extension)
is recorded as an absent table entry rather than as an error. -/
theorem wgl_extension_functions_resolved_once (drv : ExtensionDriver) (n : Nat)
    (hn : 1 ≤ n) :
    (resolve_extension_functions_trace drv n none).2.2 = 1 ∧
    (resolve_extension_functions_trace drv n none).1 =
      List.replicate n (extension_loader_thread drv) ∧
    (∀ functions ∈ (resolve_extension_functions_trace drv n none).1,
      functions = extension_loader_thread drv) ∧
    (∀ s, drv.getExtensionsStringARB = some s →
      "WGL_ARB_pixel_format" ∉ split_space s →
      (extension_loader_thread drv).pixel_format_functions = none) ∧
    (drv.getExtensionsStringARB = none →
      (extension_loader_thread drv).pixel_format_functions = none) := by
  have habsent : ∀ s, drv.getExtensionsStringARB = some s →
      "WGL_ARB_pixel_format" ∉ split_space s →
      (extension_loader_thread drv).pixel_format_functions = none := by
    intro s hs hmem
    unfold extension_loader_thread extension_loader_window_proc
    simp only [hs]
    exact load_extension_functions_pixel_format_absent drv _ _ hmem
  have habsent' : drv.getExtensionsStringARB = none →
      (extension_loader_thread drv).pixel_format_functions = none := by
    intro hs
    unfold extension_loader_thread extension_loader_window_proc
    simp only [hs]
    exact load_extension_functions_pixel_format_absent drv _ _ (by decide)
  obtain ⟨m, rfl⟩ : ∃ m, n = m + 1 := ⟨n - 1, by omega⟩
  have hfill := resolve_trace_filled drv (extension_loader_thread drv) m
  refine ⟨?_, ?_, ?_, habsent, habsent'⟩
  · simp only [resolve_extension_functions_trace, resolve_extension_functions]
    rw [hfill.2]
  · simp only [resolve_extension_functions_trace, resolve_extension_functions,
      List.replicate]
    rw [hfill.1]
  · intro functions hf
    simp only [resolve_extension_functions_trace, resolve_extension_functions]
      at hf
    rw [hfill.1] at hf
    rcases List.mem_cons.1 hf with h | h
    · exact h
    · exact List.eq_of_mem_replicate h

/-- Witness for C9: three accesses against a driver advertising
`WGL_ARB_create_context` and `WGL_NV_DX_interop` but not
`WGL_ARB_pixel_format` run the bootstrap once, all observe the loader table,
and that table has no pixel-format entry. -/
theorem wgl_extension_functions_resolved_once_witness :
    (resolve_extension_functions_trace
        ⟨some "WGL_ARB_create_context WGL_NV_DX_interop",
         fun _ => (true, 1, 1), (), some (fun dc _ => dc)⟩ 3 none).2.2 = 1 ∧
    (resolve_extension_functions_trace
        ⟨some "WGL_ARB_create_context WGL_NV_DX_interop",
         fun _ => (true, 1, 1), (), some (fun dc _ => dc)⟩ 3 none).1 =
      List.replicate 3 (extension_loader_thread
        ⟨some "WGL_ARB_create_context WGL_NV_DX_interop",
         fun _ => (true, 1, 1), (), some (fun dc _ => dc)⟩) ∧
    (extension_loader_thread
        ⟨some "WGL_ARB_create_context WGL_NV_DX_interop",
         fun _ => (true, 1, 1), (), some (fun dc _ => dc)⟩).pixel_format_functions =
      none := by
  have h := wgl_extension_functions_resolved_once
    ⟨some "WGL_ARB_create_context WGL_NV_DX_interop",
     fun _ => (true, 1, 1), (), some (fun dc _ => dc)⟩ 3 (by omega)
  exact ⟨h.1, h.2.1, h.2.2.2.1 _ rfl (by decide)⟩
